import Mathlib

/-!
Shallow embedding of the lakehouse-lite dashboard core
(`app/streamlit_app.py`, `src/ingest/db.py`, `scripts/make_env_from_neon.py`)
and proofs about its configuration resolution, connection construction,
query cache, result sanitizer, and env-file generator.
-/

namespace LakehouseLite

/-! ## Config resolver (`get_db_config`, `_try_get_streamlit_secret`) -/

/-- Python truthiness of an optional string: `None` and `""` are falsy. -/
def truthy : Option String → Bool
  | none => false
  | some s => !(s == "")

/-- Python `a or b` on optional strings: `a` when truthy, else `b`. -/
def pyOr (a b : Option String) : Option String :=
  if truthy a then a else b

/-- Helper `_try_get_streamlit_secret`: returns `st.secrets.get(key, None)`, or `None`
when accessing the secret store raises (store unreachable). -/
def tryGetStreamlitSecret (secrets : String → Option String)
    (reachable : Bool) (key : String) : Option String :=
  if reachable then secrets key else none

/-- One entry of the `cfg` dict built by `get_db_config`:
`os.getenv(k) or _try_get_streamlit_secret(k)`, with the extra default for
`DB_PORT` and `DB_SSLMODE`. -/
def cfgValue (env secrets : String → Option String) (reachable : Bool)
    (k : String) : Option String :=
  let base := pyOr (env k) (tryGetStreamlitSecret secrets reachable k)
  if k = "DB_PORT" then pyOr base (some "5432")
  else if k = "DB_SSLMODE" then pyOr base (some "require")
  else base

/-- The keys of the `cfg` dict, in insertion order. -/
def cfgKeys : List String :=
  ["DB_HOST", "DB_PORT", "DB_NAME", "DB_USER", "DB_PASSWORD", "DB_SSLMODE"]

/-- The list `missing = [k for k, v in cfg.items() if not v and k != "DB_SSLMODE"]`. -/
def missingKeys (env secrets : String → Option String) (reachable : Bool) :
    List String :=
  cfgKeys.filter (fun k =>
    !(truthy (cfgValue env secrets reachable k)) && !(k == "DB_SSLMODE"))

/-- Resolved configuration snapshot (the `cfg` dict after the missing check). -/
structure DbConfig where
  host : String
  port : String
  name : String
  user : String
  password : String
  sslmode : String
  deriving DecidableEq, Repr

/-- Function `get_db_config`: errors with the list of missing keys (the `st.error` +
`st.stop` path) when any required value is falsy, else returns the snapshot. -/
def get_db_config (env secrets : String → Option String) (reachable : Bool) :
    Except (List String) DbConfig :=
  let v := cfgValue env secrets reachable
  if missingKeys env secrets reachable = [] then
    .ok
      { host := (v "DB_HOST").getD ""
        port := (v "DB_PORT").getD ""
        name := (v "DB_NAME").getD ""
        user := (v "DB_USER").getD ""
        password := (v "DB_PASSWORD").getD ""
        sslmode := (v "DB_SSLMODE").getD "" }
  else
    .error (missingKeys env secrets reachable)

/-! ## Connection construction (`make_engine`, `db.get_engine`, `quote_plus`) -/

/-- UTF-8 byte encoding of one character, as CPython encodes `str` for URL
quoting. -/
def utf8Bytes (c : Char) : List Nat :=
  let n := c.toNat
  if n < 0x80 then [n]
  else if n < 0x800 then [0xC0 + n / 64, 0x80 + n % 64]
  else if n < 0x10000 then [0xE0 + n / 4096, 0x80 + n / 64 % 64, 0x80 + n % 64]
  else [0xF0 + n / 262144, 0x80 + n / 4096 % 64, 0x80 + n / 64 % 64, 0x80 + n % 64]

/-- A Python string as its UTF-8 bytes. -/
def strBytes (s : String) : List Nat := (s.data.map utf8Bytes).flatten

/-- Always-safe byte for `urllib.parse.quote`: ASCII letters, digits, `_.-~`. -/
def isSafeByte (b : Nat) : Bool :=
  (48 ≤ b && b ≤ 57) || (65 ≤ b && b ≤ 90) || (97 ≤ b && b ≤ 122) ||
    b == 95 || b == 46 || b == 45 || b == 126

/-- ASCII code of the upper-case hex digit for `n < 16`. -/
def hexDigitCode (n : Nat) : Nat :=
  if n < 10 then 48 + n else if n < 16 then 55 + n else 48

/-- Action of `quote_plus` on one input byte, producing output ASCII codes:
safe bytes pass, space becomes `+`, everything else becomes `%HH`. -/
def quoteByte (b : Nat) : List Nat :=
  if isSafeByte b then [b]
  else if b == 32 then [43]
  else [37, hexDigitCode (b / 16), hexDigitCode (b % 16)]

/-- Encoder `urllib.parse.quote_plus`, as the ASCII codes of its output string. -/
def quote_plus (s : String) : List Nat := ((strBytes s).map quoteByte).flatten

/-- Connection URL assembled by `make_engine`:
`postgresql+psycopg2://{user}:{pwd}@{host}:{port}/{db}?sslmode={ssl}`
with `pwd = quote_plus(cfg["DB_PASSWORD"] or "")` and
`ssl = cfg["DB_SSLMODE"] or "require"`, as UTF-8 bytes. -/
def make_engine_url (cfg : DbConfig) : List Nat :=
  strBytes "postgresql+psycopg2://" ++ strBytes cfg.user ++ [58] ++
    quote_plus cfg.password ++ [64] ++ strBytes cfg.host ++ [58] ++
    strBytes cfg.port ++ [47] ++ strBytes cfg.name ++ strBytes "?sslmode=" ++
    strBytes (if cfg.sslmode == "" then "require" else cfg.sslmode)

/-- Function `get_engine` (src/ingest/db.py): env lookups with hard-coded defaults and
the password interpolated raw—without URL encoding—into the URL. -/
def get_engine_url (env : String → Option String) : List Nat :=
  let host := (env "DB_HOST").getD "localhost"
  let port := (env "DB_PORT").getD "5432"
  let name := (env "DB_NAME").getD "lakehouse_db"
  let user := (env "DB_USER").getD "lakehouse"
  let password := (env "DB_PASSWORD").getD "lakehouse123"
  let sslmode := (env "DB_SSLMODE").getD ""
  let url := strBytes "postgresql+psycopg2://" ++ strBytes user ++ [58] ++
    strBytes password ++ [64] ++ strBytes host ++ [58] ++ strBytes port ++
    [47] ++ strBytes name
  if sslmode == "" then url else url ++ strBytes "?sslmode=" ++ strBytes sslmode

/-- Process-wide counters observing engine construction and config
resolution. -/
structure ProcState where
  enginesOpened : Nat
  configResolutions : Nat
  deriving DecidableEq, Repr

/-- A pooled SQLAlchemy engine handle; `id` distinguishes separately created
engines. -/
structure Engine where
  id : Nat
  url : List Nat
  poolPrePing : Bool
  deriving DecidableEq, Repr

/-- Function `make_engine`: resolves configuration via `get_db_config` and calls
`create_engine(url, pool_pre_ping=True)`. The source keeps no module-level
handle, so every call re-resolves and constructs a fresh engine. -/
def make_engine (env secrets : String → Option String) (reachable : Bool)
    (st : ProcState) : Except (List String) (Engine × ProcState) :=
  match get_db_config env secrets reachable with
  | .error m => .error m
  | .ok cfg =>
      .ok (⟨st.enginesOpened, make_engine_url cfg, true⟩,
        ⟨st.enginesOpened + 1, st.configResolutions + 1⟩)

/-! ## Result sanitizer (`_fix_for_streamlit`) -/

/-- A pandas cell value as the dashboard sees it. -/
inductive PyVal where
  | str (s : String)
  | int (n : Int)
  | float (q : ℚ)
  | bool (b : Bool)
  | pyNone
  | nan
  | na
  | nested (shown : String)
  deriving DecidableEq, Repr

/-- Null markers: `None`, float NaN and `pd.NA` are dropped by `dropna` and
mapped to `pd.NA` by `astype("string")`. -/
def isNullMarker : PyVal → Bool
  | .pyNone => true
  | .nan => true
  | .na => true
  | _ => false

/-- Python check `isinstance(x, (str, int, float, bool))`. -/
def isScalarInstance : PyVal → Bool
  | .str _ => true
  | .int _ => true
  | .float _ => true
  | .bool _ => true
  | .nan => true
  | _ => false

/-- Python `str()` of a cell value (stand-in rendering for floats). -/
def pyStr : PyVal → String
  | .str s => s
  | .int n => toString n
  | .float q => toString q
  | .bool true => "True"
  | .bool false => "False"
  | .pyNone => "None"
  | .nan => "nan"
  | .na => "<NA>"
  | .nested shown => shown

/-- A dataframe column: name, `str(dtype)`, and cell values. -/
structure Column where
  name : String
  dtype : String
  values : List PyVal
  deriving DecidableEq, Repr

/-- A dataframe: an ordered sequence of columns. -/
abbrev Table := List Column

/-- Does `needle` occur as a contiguous run of `hay`? -/
def hasSub {α : Type} [BEq α] (needle : List α) : List α → Bool
  | [] => needle.isEmpty
  | c :: t => needle.isPrefixOf (c :: t) || hasSub needle t

/-- Python membership `needle in hay` on strings. -/
def containsSub (needle hay : String) : Bool := hasSub needle.data hay.data

/-- Cast `df[c].astype("string")`: the dtype becomes `"string"`, null markers
become `pd.NA`, every other value becomes its `str()` image. -/
def castToStringDtype (c : Column) : Column :=
  { name := c.name, dtype := "string",
    values := c.values.map (fun v => if isNullMarker v then .na else .str (pyStr v)) }

/-- Dtype test of the first loop:
`"pyarrow" in dt or "Arrow" in dt or dt.startswith("string[pyarrow]")`. -/
def isArrowBacked (dt : String) : Bool :=
  containsSub "pyarrow" dt || containsSub "Arrow" dt ||
    "string[pyarrow]".isPrefixOf dt

/-- Conversion test of the second loop: the first five non-null values are all
`str`/`int`/`float`/`bool` instances. -/
def sampleAllScalar (c : Column) : Bool :=
  ((c.values.filter (fun v => !(isNullMarker v))).take 5).all isScalarInstance

/-- Per-column effect of the two loops of `_fix_for_streamlit`. -/
def fixColumn (c : Column) : Column :=
  let c1 := if isArrowBacked c.dtype then castToStringDtype c else c
  if c1.dtype == "object" then
    if sampleAllScalar c1 then castToStringDtype c1 else c1
  else c1

/-- Sanitizer `_fix_for_streamlit`: normalizes each column of a copy of the frame. -/
def fix_for_streamlit (t : Table) : Table := t.map fixColumn

/-! ## Query cache -/

/-- Modelled from the spec: the TTL cache behind `st.cache_data(ttl=300)` is
Streamlit library code, not part of this repository; only the decorator
appears in the source. Per §4.3, `get` returns a stored entry unchanged while
`now - computed_at < ttl`, and otherwise runs `compute`, stores the result
with `computed_at = now`, and returns it. The result triple is
(value, computed_at, new cache state). -/
def cacheGet {α : Type} (ttl now : Nat) (compute : Nat → α)
    (st : Option (α × Nat)) : α × Nat × Option (α × Nat) :=
  match st with
  | some (v, t0) =>
      if now - t0 < ttl then (v, t0, some (v, t0))
      else (compute now, now, some (compute now, now))
  | none => (compute now, now, some (compute now, now))

/-! ## Data loaders (`load_summary` rows, KPI metrics, `load_raw_sample`) -/

/-- One row of `analytics.mart_penguin_summary` as selected by
`load_summary`. -/
structure SummaryRow where
  species : String
  sex : String
  penguin_count : Nat
  avg_body_mass_g : ℚ
  avg_flipper_length_mm : ℚ
  deriving DecidableEq, Repr

/-- The KPI block computed from the summary frame:
`total_groups = len(summary)`, `total_penguins = summary["penguin_count"].sum()`,
`species_count = summary["species"].nunique()`. -/
structure Metrics where
  total_groups : Nat
  total_entities : Nat
  distinct_categories : Nat
  deriving DecidableEq, Repr

/-- The three KPI values, computed from the rows of `load_summary()`. -/
def load_metrics (summary : List SummaryRow) : Metrics :=
  { total_groups := summary.length
    total_entities := (summary.map (fun r => r.penguin_count)).sum
    distinct_categories := ((summary.map (fun r => r.species)).dedup).length }

/-- One row of `raw.penguins` as selected by `load_raw_sample`. -/
structure RawRow where
  species : Option String
  island : Option String
  bill_length_mm : Option ℚ
  bill_depth_mm : Option ℚ
  flipper_length_mm : Option ℚ
  body_mass_g : Option ℚ
  sex : Option String
  deriving DecidableEq, Repr

/-- The query `select ... from raw.penguins limit :limit` carries no ORDER BY clause:
the engine returns the stored rows in an engine-chosen order `ordering` (any
permutation of the stored table), truncated to `limit` rows. -/
def load_raw_sample_rows (ordering : List RawRow) (limit : Nat) : List RawRow :=
  ordering.take limit

/-! ## `scripts/make_env_from_neon.py` -/

/-- The sslmode conditional of the script:
`ssl = "require" if "sslmode=require" in s else "require"`. -/
def neonSsl (s : String) : String :=
  if containsSub "sslmode=require" s then "require" else "require"

/-- The `.env` text the script writes from the parsed fields. -/
def neonEnvText (host port db user pwd ssl : String) : String :=
  "DB_HOST=" ++ host ++ "\nDB_PORT=" ++ port ++ "\nDB_NAME=" ++ db ++
    "\nDB_USER=" ++ user ++ "\nDB_PASSWORD=" ++ pwd ++ "\nDB_SSLMODE=" ++
    ssl ++ "\n"

/-- Output of the script for input text `s` once the regex has produced the
groups (user, pwd, host, port, db). -/
def makeEnvOutput (s user pwd host port db : String) : String :=
  neonEnvText host port db user pwd (neonSsl s)

/-- Concrete stored row of `raw.penguins` used in examples. -/
def r1 : RawRow :=
  ⟨some "Adelie", some "Torgersen", some 39, some 18, some 181, some 3750,
    some "male"⟩

/-- A second concrete stored row of `raw.penguins`. -/
def r2 : RawRow :=
  ⟨some "Gentoo", some "Biscoe", some 46, some 14, some 217, some 4500,
    some "female"⟩

/-- Concrete environment with every key present except `DB_PASSWORD`. -/
def envAllButPassword : String → Option String := fun k =>
  if k == "DB_PASSWORD" then none else some "set"

/-- URL-reserved delimiter bytes `:`(58) `@`(64) `/`(47) `?`(63) `#`(35)
whose raw presence in a URL component corrupts the connection string. -/
def isReservedDelim (b : Nat) : Bool :=
  b == 58 || b == 64 || b == 47 || b == 63 || b == 35

/-- Concrete environment whose only setting is a password with a reserved
character. -/
def envPwd : String → Option String := fun k =>
  if k == "DB_PASSWORD" then some "p@ss" else none

/-- Renderer-safe shape after `astype("string")`: a plain string or an
explicit `pd.NA`. -/
def isStringOrNA : PyVal → Bool
  | .str _ => true
  | .na => true
  | _ => false

/-! ## Helper lemmas -/

theorem truthy_pyOr_some (a : Option String) (d : String) (hd : d ≠ "") :
    truthy (pyOr a (some d)) = true := by
  unfold pyOr
  split
  · assumption
  · simpa [truthy]

theorem hasSub_append_right {α : Type} [BEq α] (n xs ys : List α)
    (h : hasSub n ys = true) : hasSub n (xs ++ ys) = true := by
  induction xs with
  | nil => simpa
  | cons x t ih => simp [hasSub, ih]

theorem isPrefixOf_append_self {α : Type} [BEq α] [LawfulBEq α]
    (n ys : List α) : n.isPrefixOf (n ++ ys) = true := by
  induction n with
  | nil => simp [List.isPrefixOf]
  | cons a t ih => simp [List.isPrefixOf, ih]

theorem hasSub_append_self {α : Type} [BEq α] [LawfulBEq α] (n ys : List α) :
    hasSub n (n ++ ys) = true := by
  cases n with
  | nil =>
      cases ys with
      | nil => rfl
      | cons c t => simp [hasSub]
  | cons a t => simp [hasSub]

theorem hasSub_nil_needle {α : Type} [BEq α] (ys : List α) :
    hasSub ([] : List α) ys = true := by
  cases ys <;> simp [hasSub, List.isPrefixOf]

theorem isPrefixOf_append_ext {α : Type} [BEq α] (n xs ys : List α)
    (h : n.isPrefixOf xs = true) : n.isPrefixOf (xs ++ ys) = true := by
  induction n generalizing xs with
  | nil => simp [List.isPrefixOf]
  | cons a t ih =>
      cases xs with
      | nil => simp [List.isPrefixOf] at h
      | cons x xt =>
          simp only [List.cons_append, List.isPrefixOf, Bool.and_eq_true] at h ⊢
          exact ⟨h.1, ih xt h.2⟩

theorem hasSub_append_left {α : Type} [BEq α] (n xs ys : List α)
    (h : hasSub n xs = true) : hasSub n (xs ++ ys) = true := by
  induction xs with
  | nil =>
      have hn : n = [] := by simpa [hasSub, List.isEmpty_iff] using h
      subst hn
      exact hasSub_nil_needle _
  | cons c t ih =>
      rw [List.cons_append]
      simp only [hasSub, Bool.or_eq_true] at h ⊢
      rcases h with h | h
      · exact Or.inl (by
          have := isPrefixOf_append_ext n (c :: t) ys h
          simpa using this)
      · exact Or.inr (ih h)

theorem hexDigitCode_not_delim (n : Nat) :
    isReservedDelim (hexDigitCode n) = false := by
  unfold hexDigitCode isReservedDelim
  split_ifs <;> simp <;> omega

theorem quoteByte_no_delims (b : Nat) :
    (quoteByte b).all (fun x => !(isReservedDelim x)) = true := by
  unfold quoteByte
  split
  · rename_i hsafe
    simp only [isSafeByte, Bool.or_eq_true, Bool.and_eq_true,
      decide_eq_true_eq, beq_iff_eq] at hsafe
    simp only [List.all_cons, List.all_nil, Bool.and_true, Bool.not_eq_true']
    simp only [isReservedDelim, Bool.or_eq_false_iff, beq_eq_false_iff_ne]
    omega
  · split
    · decide
    · simp [hexDigitCode_not_delim]
      decide

theorem all_flatten_of_all {α : Type} (p : α → Bool) (l : List (List α))
    (h : ∀ xs ∈ l, xs.all p = true) : l.flatten.all p = true := by
  induction l with
  | nil => rfl
  | cons xs t ih =>
      simp only [List.flatten_cons, List.all_append, Bool.and_eq_true]
      exact ⟨h xs (by simp), ih (fun ys hy => h ys (by simp [hy]))⟩

theorem quote_plus_no_delims (pwd : String) :
    (quote_plus pwd).all (fun b => !(isReservedDelim b)) = true := by
  unfold quote_plus
  apply all_flatten_of_all
  intro xs hxs
  rcases List.mem_map.1 hxs with ⟨b, _, rfl⟩
  exact quoteByte_no_delims b

theorem truthy_cfgValue_port (env secrets : String → Option String)
    (reachable : Bool) :
    truthy (cfgValue env secrets reachable "DB_PORT") = true := by
  simp only [cfgValue, if_pos rfl]
  exact truthy_pyOr_some _ _ (by decide)

theorem castToStringDtype_all_stringOrNA (c : Column) :
    (castToStringDtype c).values.all isStringOrNA = true := by
  simp only [castToStringDtype, List.all_map, List.all_eq_true,
    Function.comp_apply]
  intro v _
  split <;> rfl

theorem isArrowBacked_string : isArrowBacked "string" = false := by decide

theorem isArrowBacked_object : isArrowBacked "object" = false := by decide

theorem fixColumn_string_dtype (d : Column) (hd : d.dtype = "string") :
    fixColumn d = d := by
  simp [fixColumn, hd, isArrowBacked_string]

theorem fixColumn_idem (c : Column) : fixColumn (fixColumn c) = fixColumn c := by
  cases hA : isArrowBacked c.dtype with
  | true =>
      have h1 : fixColumn c = castToStringDtype c := by
        simp [fixColumn, hA, castToStringDtype]
      rw [h1]
      exact fixColumn_string_dtype _ rfl
  | false =>
      cases hO : c.dtype == "object" with
      | true =>
          cases hS : sampleAllScalar c with
          | true =>
              have h1 : fixColumn c = castToStringDtype c := by
                simp [fixColumn, hA, hO, hS]
              rw [h1]
              exact fixColumn_string_dtype _ rfl
          | false =>
              have h1 : fixColumn c = c := by
                simp [fixColumn, hA, hO, hS]
              rw [h1]
              exact h1
      | false =>
          have h1 : fixColumn c = c := by
            simp [fixColumn, hA, hO]
          rw [h1]
          exact h1

/-! ## Claims -/

/-- C1 as stated is false on the code: with `DB_HOST` present in both the
environment and the reachable secret store, resolution returns the
environment value, not the secret-store value (the source checks
`os.getenv` before `st.secrets`). -/
theorem C1_counterexample :
    cfgValue (fun k => if k == "DB_HOST" then some "envhost" else none)
        (fun k => if k == "DB_HOST" then some "sechost" else none) true
        "DB_HOST" = some "envhost" ∧
    ("envhost" : String) ≠ "sechost" := by
  constructor
  · decide
  · decide

/-- C1 (amended): for every non-defaulted key, resolution returns the
environment value whenever it is non-empty, even when the reachable secret
store also holds a value; only when the environment value is missing or
empty is the secret-store result used; an unreachable store or a store miss
yields `None` there and resolution falls through without error. -/
theorem C1_env_wins (env secrets : String → Option String) (reachable : Bool)
    (k : String) (hp : k ≠ "DB_PORT") (hs : k ≠ "DB_SSLMODE") :
    (truthy (env k) = true → cfgValue env secrets reachable k = env k) ∧
    (truthy (env k) = false →
      cfgValue env secrets reachable k =
        tryGetStreamlitSecret secrets reachable k) ∧
    (truthy (env k) = false → secrets k = none →
      cfgValue env secrets reachable k = none) := by
  refine ⟨fun h => ?_, fun h => ?_, fun h hn => ?_⟩
  · simp [cfgValue, hp, hs, pyOr, h]
  · simp [cfgValue, hp, hs, pyOr, h]
  · simp [cfgValue, hp, hs, pyOr, h, tryGetStreamlitSecret, hn]

/-- Witness for C1 (amended): at a concrete environment and secret store the
environment value wins, and with both sources empty resolution yields
`None`. -/
theorem C1_env_wins_witness :
    cfgValue (fun k => if k == "DB_HOST" then some "envhost" else none)
        (fun _ => some "sechost") true "DB_HOST" = some "envhost" ∧
    cfgValue (fun _ => none) (fun _ => none) true "DB_HOST" = none := by
  constructor
  · have h :=
      (C1_env_wins (fun k => if k == "DB_HOST" then some "envhost" else none)
        (fun _ => some "sechost") true "DB_HOST" (by decide) (by decide)).1
        (by decide)
    simpa using h
  · exact (C1_env_wins (fun _ => none) (fun _ => none) true "DB_HOST"
      (by decide) (by decide)).2.2 (by decide) rfl

/-- C6: the missing-key list names every required key whose resolved value
is falsy, not just the first; the defaulted keys `DB_PORT` and `DB_SSLMODE`
never appear in it; and a missing `DB_PASSWORD` with all other keys present
yields an error naming exactly `["DB_PASSWORD"]`. -/
theorem C6_missing_keys :
    (∀ env secrets reachable,
      "DB_PORT" ∉ missingKeys env secrets reachable ∧
        "DB_SSLMODE" ∉ missingKeys env secrets reachable) ∧
    (∀ env secrets reachable (k : String),
      k ∈ missingKeys env secrets reachable ↔
        (k ∈ ["DB_HOST", "DB_NAME", "DB_USER", "DB_PASSWORD"] ∧
          truthy (cfgValue env secrets reachable k) = false)) ∧
    missingKeys envAllButPassword (fun _ => none) false = ["DB_PASSWORD"] ∧
    get_db_config envAllButPassword (fun _ => none) false =
      .error ["DB_PASSWORD"] := by
  refine ⟨fun env secrets reachable => ?_, fun env secrets reachable k => ?_,
    ?_, ?_⟩
  · constructor
    · intro h
      rcases List.mem_filter.1 h with ⟨_, hp⟩
      rw [truthy_cfgValue_port env secrets reachable] at hp
      simp at hp
    · intro h
      rcases List.mem_filter.1 h with ⟨_, hp⟩
      simp at hp
  · rw [missingKeys, List.mem_filter]
    constructor
    · rintro ⟨hk, hp⟩
      simp only [cfgKeys, List.mem_cons, List.not_mem_nil, or_false] at hk
      rcases hk with h | h | h | h | h | h <;> subst h
      · refine ⟨by simp, ?_⟩
        simpa using hp
      · rw [truthy_cfgValue_port env secrets reachable] at hp
        simp at hp
      · refine ⟨by simp, ?_⟩
        simpa using hp
      · refine ⟨by simp, ?_⟩
        simpa using hp
      · refine ⟨by simp, ?_⟩
        simpa using hp
      · simp at hp
    · rintro ⟨hk, ht⟩
      simp only [List.mem_cons, List.not_mem_nil, or_false] at hk
      rcases hk with h | h | h | h <;> subst h <;>
        exact ⟨by simp [cfgKeys], by simp [ht]⟩
  · decide
  · rfl

/-- C10: for every parseable connection string, make_env_from_neon.py writes
`DB_SSLMODE=require` into the generated `.env`: both branches of the sslmode
conditional evaluate to `"require"`, so the written value does not depend on
whether the input contains `sslmode=require`. -/
theorem C10_ssl_always_require :
    (∀ s : String, neonSsl s = "require") ∧
    (∀ s t : String, neonSsl s = neonSsl t) ∧
    (∀ s user pwd host port db : String,
      makeEnvOutput s user pwd host port db =
        neonEnvText host port db user pwd "require") := by
  refine ⟨fun s => ?_, fun s t => ?_, fun s user pwd host port db => ?_⟩
  · simp [neonSsl]
  · simp [neonSsl]
  · simp [makeEnvOutput, neonSsl]

/-- C2: the KPI metrics are derived from the same summary frame, so
`total_entities` equals the sum of `penguin_count` over the summary rows and
`distinct_categories` equals the number of distinct species; on the
three-row scenario table the metrics are (3, 204, 2). -/
theorem C2_metrics_invariant :
    (∀ summary : List SummaryRow,
      (load_metrics summary).total_entities =
          (summary.map (fun r => r.penguin_count)).sum ∧
        (load_metrics summary).distinct_categories =
          (summary.map (fun r => r.species)).toFinset.card) ∧
    load_metrics
        [⟨"Adelie", "female", 73, 33688 / 10, 18780 / 100⟩,
         ⟨"Adelie", "male", 73, 40435 / 10, 19240 / 100⟩,
         ⟨"Gentoo", "female", 58, 46797 / 10, 21270 / 100⟩] =
      ⟨3, 204, 2⟩ := by
  constructor
  · intro summary
    exact ⟨rfl, (List.card_toFinset _).symm⟩
  · decide

/-- C3 as stated is false on the code: the raw-sample query has no ORDER BY
clause, so the engine may return the stored rows in any order; here two
admissible orderings of the same two-row table disagree already at
`limit = 1`. -/
theorem C3_counterexample :
    List.Perm [r1, r2] [r1, r2] ∧ List.Perm [r2, r1] [r1, r2] ∧
    load_raw_sample_rows [r1, r2] 1 ≠ load_raw_sample_rows [r2, r1] 1 := by
  refine ⟨List.Perm.refl _, List.Perm.swap r1 r2 [], ?_⟩
  decide

/-- C3 (amended): for every engine-chosen ordering and every `limit ≥ 0`,
`load_raw_sample(limit)` returns at most `limit` rows, and for a fixed
ordering a smaller limit yields a prefix of a larger one; but the query has
no ORDER BY, so the ordering itself is not guaranteed deterministic. -/
theorem C3_bounded_sample (ordering : List RawRow) (limit : Nat) :
    (load_raw_sample_rows ordering limit).length ≤ limit ∧
    ∀ l1 l2 : Nat, l1 ≤ l2 →
      load_raw_sample_rows ordering l1 =
        (load_raw_sample_rows ordering l2).take l1 := by
  constructor
  · simp [load_raw_sample_rows]
  · intro l1 l2 h
    simp [load_raw_sample_rows, List.take_take, Nat.min_eq_left h]

/-- Witness for C3 (amended) at the concrete table `[r1, r2]`. -/
theorem C3_bounded_sample_witness :
    (load_raw_sample_rows [r1, r2] 1).length ≤ 1 ∧
    load_raw_sample_rows [r1, r2] 1 =
      (load_raw_sample_rows [r1, r2] 2).take 1 :=
  ⟨(C3_bounded_sample [r1, r2] 1).1,
    (C3_bounded_sample [r1, r2] 1).2 1 2 (by decide)⟩

/-- C4 as stated is false on the code: two successive `make_engine` calls on
the same full configuration construct two distinct engine handles and bump
both the engine and the config-resolution counters, instead of returning
one memoized handle. -/
theorem C4_counterexample :
    make_engine (fun _ => some "v") (fun _ => none) false ⟨0, 0⟩ =
      .ok (⟨0, make_engine_url ⟨"v", "v", "v", "v", "v", "v"⟩, true⟩,
        ⟨1, 1⟩) ∧
    make_engine (fun _ => some "v") (fun _ => none) false ⟨1, 1⟩ =
      .ok (⟨1, make_engine_url ⟨"v", "v", "v", "v", "v", "v"⟩, true⟩,
        ⟨2, 2⟩) ∧
    (⟨0, make_engine_url ⟨"v", "v", "v", "v", "v", "v"⟩, true⟩ : Engine) ≠
      ⟨1, make_engine_url ⟨"v", "v", "v", "v", "v", "v"⟩, true⟩ := by
  refine ⟨rfl, rfl, ?_⟩
  intro h
  exact absurd (congrArg Engine.id h) (by decide)

/-- C4 (amended): `make_engine` memoizes nothing: every call re-resolves the
configuration and constructs a fresh pooled engine, so two successive calls
return distinct handles and increment both counters. -/
theorem C4_fresh_engine_each_call (env secrets : String → Option String)
    (reachable : Bool) (st : ProcState) (cfg : DbConfig)
    (h : get_db_config env secrets reachable = .ok cfg) :
    make_engine env secrets reachable st =
      .ok (⟨st.enginesOpened, make_engine_url cfg, true⟩,
        ⟨st.enginesOpened + 1, st.configResolutions + 1⟩) ∧
    make_engine env secrets reachable
        ⟨st.enginesOpened + 1, st.configResolutions + 1⟩ =
      .ok (⟨st.enginesOpened + 1, make_engine_url cfg, true⟩,
        ⟨st.enginesOpened + 2, st.configResolutions + 2⟩) ∧
    (⟨st.enginesOpened, make_engine_url cfg, true⟩ : Engine) ≠
      ⟨st.enginesOpened + 1, make_engine_url cfg, true⟩ := by
  refine ⟨?_, ?_, ?_⟩
  · simp [make_engine, h]
  · simp [make_engine, h]
  · intro hEq
    have h01 := congrArg Engine.id hEq
    simp at h01

/-- Witness for C4 (amended) at a concrete environment and process state. -/
theorem C4_fresh_engine_each_call_witness :
    make_engine (fun _ => some "v") (fun _ => none) false ⟨5, 3⟩ =
      .ok (⟨5, make_engine_url ⟨"v", "v", "v", "v", "v", "v"⟩, true⟩,
        ⟨6, 4⟩) ∧
    make_engine (fun _ => some "v") (fun _ => none) false ⟨6, 4⟩ =
      .ok (⟨6, make_engine_url ⟨"v", "v", "v", "v", "v", "v"⟩, true⟩,
        ⟨7, 5⟩) ∧
    (⟨5, make_engine_url ⟨"v", "v", "v", "v", "v", "v"⟩, true⟩ : Engine) ≠
      ⟨6, make_engine_url ⟨"v", "v", "v", "v", "v", "v"⟩, true⟩ :=
  C4_fresh_engine_each_call (fun _ => some "v") (fun _ => none) false ⟨5, 3⟩
    ⟨"v", "v", "v", "v", "v", "v"⟩ rfl

/-- C7: with TTL `T`, a call within `T` seconds of the stored computation
returns the cached value unchanged (same value, same `computed_at`, cache
state untouched), and a call at or after `T` seconds recomputes, stores a
new entry stamped with the current time, and returns the new value. The
TTL cache behind `st.cache_data(ttl=300)` is Streamlit library code, so it
is modelled from spec section 4.3. -/
theorem C7_cache_ttl {α : Type} (ttl t0 now1 now2 : Nat) (v0 : α)
    (compute : Nat → α) (h1 : now1 - t0 < ttl) (h2 : ttl ≤ now2 - t0) :
    cacheGet ttl now1 compute (some (v0, t0)) = (v0, t0, some (v0, t0)) ∧
    cacheGet ttl now2 compute (some (v0, t0)) =
      (compute now2, now2, some (compute now2, now2)) ∧
    cacheGet ttl t0 compute none =
      (compute t0, t0, some (compute t0, t0)) := by
  refine ⟨?_, ?_, rfl⟩
  · simp [cacheGet, h1]
  · simp [cacheGet, Nat.not_lt.mpr h2]

/-- Witness for C7 with `T = 300`: a hit at 100 seconds and a recompute at
400 seconds. -/
theorem C7_cache_ttl_witness :
    cacheGet 300 100 (fun t => t) (some (5, 0)) = (5, 0, some (5, 0)) ∧
    cacheGet 300 400 (fun t => t) (some (5, 0)) =
      (400, 400, some (400, 400)) ∧
    cacheGet 300 0 (fun t => t) none = (0, 0, some (0, 0)) :=
  C7_cache_ttl 300 0 100 400 5 (fun t => t) (by decide) (by decide)

/-- C5 as stated is false on the code: the ingest helper `get_engine`
(src/ingest/db.py) interpolates the password raw, so for the password
`p@ss` its connection string holds two `@` delimiters and contains the raw
password rather than its URL-encoded form `p%40ss`. -/
theorem C5_counterexample :
    (get_engine_url envPwd).count 64 = 2 ∧
    hasSub (strBytes "p@ss") (get_engine_url envPwd) = true ∧
    hasSub (quote_plus "p@ss") (get_engine_url envPwd) = false ∧
    quote_plus "p@ss" ≠ strBytes "p@ss" := by
  refine ⟨?_, ?_, ?_, ?_⟩ <;> decide

/-- C5 (amended): the dashboard `make_engine` URL-encodes the password with
`quote_plus`, whose output never contains a URL-reserved delimiter, and
places the encoded form in its connection string; the ingest `get_engine`
instead places the password raw, so reserved characters there can corrupt
the string. -/
theorem C5_password_encoding (cfg : DbConfig) (env : String → Option String)
    (pwd : String) (h : env "DB_PASSWORD" = some pwd) :
    ((quote_plus cfg.password).all fun b => !(isReservedDelim b)) = true ∧
    hasSub (quote_plus cfg.password) (make_engine_url cfg) = true ∧
    hasSub (strBytes pwd) (get_engine_url env) = true := by
  refine ⟨quote_plus_no_delims cfg.password, ?_, ?_⟩
  · unfold make_engine_url
    simp only [List.append_assoc]
    exact hasSub_append_right _ _ _ (hasSub_append_right _ _ _
      (hasSub_append_right _ _ _ (hasSub_append_self _ _)))
  · unfold get_engine_url
    rw [h]
    simp only [Option.getD_some, List.append_assoc]
    split
    · exact hasSub_append_right _ _ _ (hasSub_append_right _ _ _
        (hasSub_append_right _ _ _ (hasSub_append_self _ _)))
    · exact hasSub_append_right _ _ _ (hasSub_append_right _ _ _
        (hasSub_append_right _ _ _ (hasSub_append_self _ _)))

/-- Witness for C5 (amended) at the configuration with password `p@ss`. -/
theorem C5_password_encoding_witness :
    ((quote_plus "p@ss").all fun b => !(isReservedDelim b)) = true ∧
    hasSub (quote_plus "p@ss")
      (make_engine_url ⟨"h", "5432", "db", "u", "p@ss", "require"⟩) = true ∧
    hasSub (strBytes "p@ss") (get_engine_url envPwd) = true :=
  C5_password_encoding ⟨"h", "5432", "db", "u", "p@ss", "require"⟩ envPwd
    "p@ss" rfl

/-- C8 as stated is false on the code: an object column whose sampled
values are not all scalars is passed through unchanged, so a nested value
(here a list rendering) survives in the returned table; no best-effort
numeric parse exists anywhere in `_fix_for_streamlit`. -/
theorem C8_counterexample :
    fix_for_streamlit [⟨"c", "object", [PyVal.nested "[1, 2]"]⟩] =
      [⟨"c", "object", [PyVal.nested "[1, 2]"]⟩] ∧
    isScalarInstance (PyVal.nested "[1, 2]") = false ∧
    isStringOrNA (PyVal.nested "[1, 2]") = false := by
  refine ⟨?_, rfl, rfl⟩
  decide

/-- C8 (amended): Arrow-backed columns, and object columns whose first five
non-null values are all primitive scalars, are cast to the nullable string
dtype — every null marker becomes an explicit `NA` (not an empty string)
and every other value a plain string; all remaining columns, including
object columns holding nested values and every numeric column, pass
through unchanged, so nested values may survive and no numeric coercion
occurs. -/
theorem C8_sanitizer_pass (c : Column) :
    (isArrowBacked c.dtype = true →
      fixColumn c = castToStringDtype c ∧
      (fixColumn c).dtype = "string" ∧
      (fixColumn c).values.all isStringOrNA = true) ∧
    (isArrowBacked c.dtype = false → c.dtype = "object" →
      sampleAllScalar c = true →
      fixColumn c = castToStringDtype c ∧
      (fixColumn c).values.all isStringOrNA = true) ∧
    (isArrowBacked c.dtype = false → c.dtype = "object" →
      sampleAllScalar c = false → fixColumn c = c) ∧
    (isArrowBacked c.dtype = false → c.dtype ≠ "object" →
      fixColumn c = c) := by
  refine ⟨fun hA => ?_, fun hA hO hS => ?_, fun hA hO hS => ?_,
    fun hA hO => ?_⟩
  · have h1 : fixColumn c = castToStringDtype c := by
      simp [fixColumn, hA, castToStringDtype]
    refine ⟨h1, ?_, ?_⟩
    · rw [h1]; rfl
    · rw [h1]; exact castToStringDtype_all_stringOrNA c
  · have h1 : fixColumn c = castToStringDtype c := by
      simp [fixColumn, hA, hO, hS, isArrowBacked_object]
    exact ⟨h1, by rw [h1]; exact castToStringDtype_all_stringOrNA c⟩
  · simp [fixColumn, hA, hO, hS, isArrowBacked_object]
  · simp [fixColumn, hA, hO]

/-- Witness for C8 (amended): the four branches at four concrete columns.
-/
theorem C8_sanitizer_pass_witness :
    (fixColumn ⟨"a", "string[pyarrow]", [PyVal.str "x", PyVal.pyNone]⟩ =
        castToStringDtype ⟨"a", "string[pyarrow]", [PyVal.str "x", PyVal.pyNone]⟩ ∧
      (fixColumn ⟨"a", "string[pyarrow]", [PyVal.str "x", PyVal.pyNone]⟩).dtype
        = "string" ∧
      (fixColumn
        ⟨"a", "string[pyarrow]", [PyVal.str "x", PyVal.pyNone]⟩).values.all
        isStringOrNA = true) ∧
    (fixColumn ⟨"b", "object", [PyVal.str "x"]⟩ =
        castToStringDtype ⟨"b", "object", [PyVal.str "x"]⟩ ∧
      (fixColumn ⟨"b", "object", [PyVal.str "x"]⟩).values.all isStringOrNA
        = true) ∧
    fixColumn ⟨"c", "object", [PyVal.nested "d"]⟩ =
      ⟨"c", "object", [PyVal.nested "d"]⟩ ∧
    fixColumn ⟨"d", "float64", [PyVal.float 1]⟩ =
      ⟨"d", "float64", [PyVal.float 1]⟩ :=
  ⟨(C8_sanitizer_pass ⟨"a", "string[pyarrow]", [PyVal.str "x", PyVal.pyNone]⟩).1
      (by decide),
    (C8_sanitizer_pass ⟨"b", "object", [PyVal.str "x"]⟩).2.1 (by decide)
      (by decide) (by decide),
    (C8_sanitizer_pass ⟨"c", "object", [PyVal.nested "d"]⟩).2.2.1
      (by decide) (by decide) (by decide),
    (C8_sanitizer_pass ⟨"d", "float64", [PyVal.float 1]⟩).2.2.2
      (by decide) (by decide)⟩

/-- C9: `_fix_for_streamlit` works on a copy of its input frame (embedded
here as a pure function) and is idempotent: sanitizing twice equals
sanitizing once, for every table. -/
theorem C9_sanitizer_idempotent (t : Table) :
    fix_for_streamlit (fix_for_streamlit t) = fix_for_streamlit t := by
  unfold fix_for_streamlit
  rw [List.map_map]
  apply List.map_congr_left
  intro c _
  simpa using fixColumn_idem c

/-- Witness for C9 at a concrete one-column table. -/
theorem C9_sanitizer_idempotent_witness :
    fix_for_streamlit
        (fix_for_streamlit [⟨"c", "object", [PyVal.nested "d"]⟩]) =
      fix_for_streamlit [⟨"c", "object", [PyVal.nested "d"]⟩] :=
  C9_sanitizer_idempotent [⟨"c", "object", [PyVal.nested "d"]⟩]

/-- Witness for C10 on inputs with and without `sslmode=require`. -/
theorem C10_ssl_always_require_witness :
    neonSsl "postgresql://u:p@h/db?sslmode=require" = "require" ∧
    neonSsl "postgresql://u:p@h/db" = "require" ∧
    makeEnvOutput "s" "u" "p" "h" "5432" "db" =
      neonEnvText "h" "5432" "db" "u" "p" "require" :=
  ⟨C10_ssl_always_require.1 "postgresql://u:p@h/db?sslmode=require",
    C10_ssl_always_require.1 "postgresql://u:p@h/db",
    C10_ssl_always_require.2.2 "s" "u" "p" "h" "5432" "db"⟩

/-- Witness for C2 at the three-row scenario table. -/
theorem C2_metrics_invariant_witness :
    (load_metrics
          [⟨"Adelie", "female", 73, 33688 / 10, 18780 / 100⟩,
           ⟨"Adelie", "male", 73, 40435 / 10, 19240 / 100⟩,
           ⟨"Gentoo", "female", 58, 46797 / 10, 21270 / 100⟩]).total_entities =
        (([⟨"Adelie", "female", 73, 33688 / 10, 18780 / 100⟩,
           ⟨"Adelie", "male", 73, 40435 / 10, 19240 / 100⟩,
           ⟨"Gentoo", "female", 58, 46797 / 10, 21270 / 100⟩] :
          List SummaryRow).map (fun r => r.penguin_count)).sum ∧
      (load_metrics
          [⟨"Adelie", "female", 73, 33688 / 10, 18780 / 100⟩,
           ⟨"Adelie", "male", 73, 40435 / 10, 19240 / 100⟩,
           ⟨"Gentoo", "female", 58, 46797 / 10, 21270 / 100⟩]).distinct_categories =
        (([⟨"Adelie", "female", 73, 33688 / 10, 18780 / 100⟩,
           ⟨"Adelie", "male", 73, 40435 / 10, 19240 / 100⟩,
           ⟨"Gentoo", "female", 58, 46797 / 10, 21270 / 100⟩] :
          List SummaryRow).map (fun r => r.species)).toFinset.card :=
  C2_metrics_invariant.1
    [⟨"Adelie", "female", 73, 33688 / 10, 18780 / 100⟩,
     ⟨"Adelie", "male", 73, 40435 / 10, 19240 / 100⟩,
     ⟨"Gentoo", "female", 58, 46797 / 10, 21270 / 100⟩]

/-- Witness for C6 at the environment missing only `DB_PASSWORD`. -/
theorem C6_missing_keys_witness :
    "DB_PORT" ∉ missingKeys envAllButPassword (fun _ => none) false ∧
    ("DB_PASSWORD" ∈ missingKeys envAllButPassword (fun _ => none) false ↔
      ("DB_PASSWORD" ∈ ["DB_HOST", "DB_NAME", "DB_USER", "DB_PASSWORD"] ∧
        truthy (cfgValue envAllButPassword (fun _ => none) false
          "DB_PASSWORD") = false)) :=
  ⟨(C6_missing_keys.1 envAllButPassword (fun _ => none) false).1,
    C6_missing_keys.2.1 envAllButPassword (fun _ => none) false
      "DB_PASSWORD"⟩

end LakehouseLite
